import Mathlib

/-!
Shallow embedding of the image-analysis service
(src/apps/image-analysis-service: main.py, services/content_moderation.py,
services/image_description.py, services/vector_search.py).

External effects (the classifier, the description backends, the embedding
model, the Qdrant store, HTTP transport) are modelled as explicit inputs:
each outside call is represented by an "outcome" value saying what the
external system did (returned data, returned a non-success status, or threw
an exception).  Python dictionaries returned by the services become
structures; Python exceptions become `Except` errors; confidence scores
(Python floats compared with `>`) become rationals.
-/

namespace ImageAnalysis

/-! ## content_moderation.py -/

/-- One classifier detection: NudeNet returns dicts with keys
`class` (label), `score` and `box`. -/
structure Detection where
  label : String
  score : ℚ
  box : List Int
deriving DecidableEq

/-- What the external world did during one `check_image` call: either the
decode + detector pipeline produced a detection list, or some step raised
an exception with the given message. -/
inductive ModOutcome where
  | ok (detections : List Detection)
  | err (msg : String)
deriving DecidableEq

/-- The dictionary returned by `ContentModerationService.check_image`.
`all_detections` is present only on the success path, `error` only on the
exception path (the two `return` dicts in the source have different keys). -/
structure Verdict where
  is_safe : Bool
  message : String
  detections : List Detection
  confidence_scores : List (String × ℚ)
  all_detections : Option (List Detection)
  error : Option String
deriving DecidableEq

/-- The fixed list `unsafe_labels` from `check_image` (content_moderation.py
lines 69-75). -/
def riskLabels : List String :=
  ["EXPOSED_BREAST_F", "EXPOSED_GENITALIA_F", "EXPOSED_GENITALIA_M",
   "EXPOSED_BUTTOCKS", "EXPOSED_ANUS"]

/-- `confidence_scores[label] = score`: Python dict assignment, later keys
overwrite earlier ones. -/
def setScore (m : List (String × ℚ)) (k : String) (v : ℚ) : List (String × ℚ) :=
  if m.any (fun p => p.1 == k) then
    m.map (fun p => if p.1 == k then (k, v) else p)
  else
    m ++ [(k, v)]

/-- The `confidence_scores` dict built by the loop in `check_image`. -/
def scoresOf (dets : List Detection) : List (String × ℚ) :=
  dets.foldl (fun m d => setScore m d.label d.score) []

/-- `ContentModerationService.check_image` (content_moderation.py lines
31-117).  On the success path it filters detections whose label is in the
fixed risk list with `score > threshold`; `is_safe` holds iff that filtered
list is empty.  Any exception is caught and mapped to a fail-open verdict
(`is_safe = true`, annotated message, empty detections). -/
def check_image (threshold : ℚ) (o : ModOutcome) : Verdict :=
  match o with
  | .ok detections =>
    let flagged := detections.filter
      (fun d => riskLabels.contains d.label && decide (threshold < d.score))
    let safe := flagged.isEmpty
    let msg :=
      if safe then "Image is safe for upload"
      else "Image contains inappropriate content: " ++
        String.intercalate ", " (flagged.map (fun d => d.label))
    { is_safe := safe
      message := msg
      detections := flagged
      confidence_scores := scoresOf detections
      all_detections := some detections
      error := none }
  | .err m =>
    { is_safe := true
      message := "Moderation check failed: " ++ m ++ ". Defaulting to safe."
      detections := []
      confidence_scores := []
      all_detections := none
      error := some m }

/-! ## image_description.py -/

/-- Configuration read from the environment in
`ImageDescriptionService.__init__`. -/
structure DescConfig where
  provider : String
  openai_api_key : Option String
deriving DecidableEq

/-- What the Ollama catalog probe (`GET /api/tags`) did: an HTTP response
with a status code and the list of model names, or an exception. -/
inductive ProbeOutcome where
  | http (status : Nat) (models : List String)
  | exn (msg : String)
deriving DecidableEq

/-- `a == b` on list heads: `pat` is a prefix of `s`. -/
def leadMatch : List Char → List Char → Bool
  | [], _ => true
  | _ :: _, [] => false
  | a :: as, b :: bs => (a == b) && leadMatch as bs

/-- Python's `pat in s` substring test. -/
def subMatch (pat : List Char) : List Char → Bool
  | [] => leadMatch pat []
  | b :: bs => leadMatch pat (b :: bs) || subMatch pat bs

/-- Python's `pat in s` on strings. -/
def strIn (pat s : String) : Bool := subMatch pat.data s.data

/-- Python's `str.strip()`: drop leading whitespace. -/
def dropLeadWs : List Char → List Char
  | [] => []
  | c :: cs => if c.isWhitespace then dropLeadWs cs else c :: cs

/-- Python's `str.strip()`: drop leading and trailing whitespace. -/
def stripStr (s : String) : String :=
  ⟨(dropLeadWs (dropLeadWs s.data).reverse).reverse⟩

/-- `ImageDescriptionService._check_availability` (image_description.py
lines 31-61).  For provider "openai" it only tests that the credential is
set (no probe is consulted); for provider "ollama" it needs a 200 catalog
response listing a model whose name contains "llava"; any exception and any
unknown provider resolve to `false` — the whole body is inside
`try/except`, so the function never raises. -/
def checkAvailability (cfg : DescConfig) (probe : ProbeOutcome) : Bool :=
  if cfg.provider == "openai" then
    cfg.openai_api_key.isSome
  else if cfg.provider == "ollama" then
    match probe with
    | .http status models =>
      if status == 200 then models.any (fun name => strIn "llava" name)
      else false
    | .exn _ => false
  else
    false

/-- The `ImageDescriptionService` object after `__init__` ran: the
availability probe result is stored in the `_is_available` field. -/
structure DescService where
  provider : String
  openai_api_key : Option String
  availCached : Bool
deriving DecidableEq

/-- `ImageDescriptionService.__init__`: reads the config and computes the
availability probe exactly once, caching it in `_is_available`. -/
def mkDescService (cfg : DescConfig) (probe : ProbeOutcome) : DescService :=
  { provider := cfg.provider
    openai_api_key := cfg.openai_api_key
    availCached := checkAvailability cfg probe }

/-- `ImageDescriptionService.is_available`: returns the cached flag; no
re-probe happens on later calls. -/
def DescService.is_available (s : DescService) : Bool := s.availCached

/-- What one live description call did: an HTTP response (status plus the
text payload that the service would extract) or an exception. -/
inductive CallOutcome where
  | http (status : Nat) (body : String)
  | exn (msg : String)
deriving DecidableEq

/-- `ImageDescriptionService._generate_with_openai` (lines 92-161): 200 →
stripped content, non-200 → fixed failure sentinel, exception → annotated
error sentinel.  Never raises. -/
def genWithOpenai (o : CallOutcome) : String :=
  match o with
  | .http status body =>
    if status == 200 then stripStr body
    else "Failed to generate image description"
  | .exn m => "Error with OpenAI: " ++ m

/-- `ImageDescriptionService._generate_with_ollama` (lines 163-217): same
shape as the OpenAI variant. -/
def genWithOllama (o : CallOutcome) : String :=
  match o with
  | .http status body =>
    if status == 200 then stripStr body
    else "Failed to generate image description"
  | .exn m => "Error with Ollama: " ++ m

/-- `ImageDescriptionService.generate_description` (lines 67-90): sentinel
string when the cached availability flag is down, otherwise dispatch on the
provider; all provider errors come back as sentinel strings, never as
exceptions. -/
def generate_description (s : DescService) (o : CallOutcome) : String :=
  if s.availCached = false then
    "Image description unavailable - " ++ s.provider ++ " service not configured"
  else if s.provider == "openai" then genWithOpenai o
  else if s.provider == "ollama" then genWithOllama o
  else "Unknown image description provider"

/-! ## vector_search.py -/

/-- The `VectorSearchService` object after `_initialize` ran:
`_is_available` is the cached startup flag, `modelInit` says whether
`embedding_model` is non-None, `clientInit` whether `qdrant_client` is
non-None. -/
structure VecService where
  availCached : Bool
  modelInit : Bool
  clientInit : Bool
deriving DecidableEq

/-- `VectorSearchService.is_available`: returns the cached flag. -/
def VecService.is_available (v : VecService) : Bool := v.availCached

/-- What `embedding_model.encode(text)` did: a vector or an exception. -/
inductive EncodeOutcome where
  | ok (vec : List ℚ)
  | exn (msg : String)
deriving DecidableEq

/-- `VectorSearchService.generate_embedding` (vector_search.py lines
92-111): raises when the model is not initialized, re-raises any encode
failure (`except ...: raise`) — errors are propagated, never defaulted. -/
def generate_embedding (v : VecService) (enc : EncodeOutcome) :
    Except String (List ℚ) :=
  if v.modelInit = false then .error "Embedding model not initialized"
  else
    match enc with
    | .ok vec => .ok vec
    | .exn m => .error m

/-- One persisted Qdrant point: internal `id` (a fresh uuid4 string) plus
the payload fields written by `index_asset`. -/
structure QPoint where
  id : String
  vector : List ℚ
  asset_id : String
  description : String
  metadata : List (String × String)
deriving DecidableEq

/-- The Qdrant collection contents plus a supply counter feeding the uuid
generator (`uuid.uuid4()` modelled as an injective supply of fresh ids). -/
structure QdrantState where
  points : List QPoint
  ctr : Nat
deriving DecidableEq

/-- Qdrant `upsert` semantics: replace the point with the same point id if
one exists, otherwise append. -/
def qdrantUpsert (pts : List QPoint) (p : QPoint) : List QPoint :=
  if pts.any (fun q => q.id == p.id) then
    pts.map (fun q => if q.id == p.id then p else q)
  else
    pts ++ [p]

/-- `VectorSearchService.index_asset` (vector_search.py lines 113-152):
raises when the client is not initialized; otherwise builds a point whose
id is `str(uuid.uuid4())` — drawn from the supply, independent of the
caller's `asset_id` — and upserts it. -/
def index_asset (supply : Nat → String) (v : VecService) (st : QdrantState)
    (aid descr : String) (emb : List ℚ) (meta : List (String × String)) :
    Except String QdrantState :=
  if v.clientInit = false then .error "Qdrant client not initialized"
  else
    let p : QPoint :=
      { id := supply st.ctr, vector := emb, asset_id := aid,
        description := descr, metadata := meta }
    .ok { points := qdrantUpsert st.points p, ctr := st.ctr + 1 }

/-- One formatted search hit as built by `VectorSearchService.search`. -/
structure ScoredHit where
  asset_id : String
  score : ℚ
  description : String
  workspace : String
  name : String
deriving DecidableEq

/-- `VectorSearchService.search` (vector_search.py lines 154-197): raises
when client or model is missing, propagates `generate_embedding` failures
(`except ...: raise`), otherwise returns the formatted store response
(the ranked list the store produced for the query embedding). -/
def vsSearch (v : VecService) (enc : EncodeOutcome) (qres : List ScoredHit) :
    Except String (List ScoredHit) :=
  if (v.clientInit && v.modelInit) = false then .error "Vector search not available"
  else
    match generate_embedding v enc with
    | .error e => .error e
    | .ok _ => .ok qres

/-! ## main.py -/

/-- A raised `fastapi.HTTPException`. -/
structure HTTPExc where
  status_code : Nat
  detail : String
deriving DecidableEq

/-- Python's `str()` on a starlette/fastapi `HTTPException`:
`"{status_code}: {detail}"`. -/
def excStr (e : HTTPExc) : String := toString e.status_code ++ ": " ++ e.detail

/-- An exception inside an endpoint body: either an `HTTPException` raised
by the handler itself or a plain exception bubbling up from a service. -/
inductive PyErr where
  | httpExc (e : HTTPExc)
  | exn (msg : String)
deriving DecidableEq

/-- `str(e)` on a `PyErr`. -/
def pyErrStr : PyErr → String
  | .httpExc e => excStr e
  | .exn m => m

/-- The `except Exception as e: raise HTTPException(status_code=500,
detail=str(e))` wrapper every endpoint in main.py ends with.  Note it also
catches the endpoint's own `HTTPException` raises (HTTPException derives
from Exception), re-wrapping them as status 500. -/
def wrap500 {α : Type} (body : Except PyErr α) : Except HTTPExc α :=
  match body with
  | .ok r => .ok r
  | .error e => .error { status_code := 500, detail := pyErrStr e }

deriving instance DecidableEq for Except

/-- The `AnalysisResponse` pydantic model of main.py. -/
structure AnalysisResponse where
  is_safe : Bool
  description : Option String
  embedding : Option (List ℚ)
  moderation_details : Verdict
deriving DecidableEq

/-- One `analyze` run: the HTTP-level result plus instrumentation recording
whether the description provider and the embedding provider were invoked. -/
structure AnalyzeRun where
  result : Except HTTPExc AnalysisResponse
  descCalled : Bool
  embedCalled : Bool
deriving DecidableEq

/-- The `/api/analyze` endpoint `analyze_image` (main.py lines 61-100).
Moderation always runs first; an `is_safe = false` verdict returns
immediately.  Otherwise the description provider is invoked only when its
cached availability flag is up, and the embedding provider only when
`vector_search.is_available() and description` holds — `description` is
tested for Python truthiness, i.e. non-emptiness.  An exception from
`generate_embedding` reaches the outer `except` and becomes an
`HTTPException(500, str(e))`. -/
def analyze_image (threshold : ℚ) (ds : DescService) (v : VecService)
    (mo : ModOutcome) (dco : CallOutcome) (enc : EncodeOutcome) : AnalyzeRun :=
  let m := check_image threshold mo
  if m.is_safe = false then
    { result := .ok { is_safe := false, description := none, embedding := none,
                      moderation_details := m }
      descCalled := false, embedCalled := false }
  else if ds.is_available then
    let d := generate_description ds dco
    if v.is_available && !(d == "") then
      match generate_embedding v enc with
      | .ok vec =>
        { result := .ok { is_safe := true, description := some d,
                          embedding := some vec, moderation_details := m }
          descCalled := true, embedCalled := true }
      | .error e =>
        { result := .error { status_code := 500, detail := e }
          descCalled := true, embedCalled := true }
    else
      { result := .ok { is_safe := true, description := some d,
                        embedding := none, moderation_details := m }
        descCalled := true, embedCalled := false }
  else
    { result := .ok { is_safe := true, description := none, embedding := none,
                      moderation_details := m }
      descCalled := false, embedCalled := false }

/-- The `/api/describe` endpoint `describe_image` (main.py lines 122-137):
raises `HTTPException(503, "Image description service unavailable")` when
the provider is unavailable — but that raise happens inside the `try`, so
the trailing `except Exception` converts it to a 500. -/
def api_describe (s : DescService) (o : CallOutcome) : Except HTTPExc String :=
  wrap500 (
    if s.is_available = false then
      .error (.httpExc { status_code := 503,
                         detail := "Image description service unavailable" })
    else
      .ok (generate_description s o))

/-- The `/api/search` endpoint `search_similar` (main.py lines 140-161):
same 503-inside-try pattern; service exceptions become 500s. -/
def api_search (v : VecService) (enc : EncodeOutcome) (qres : List ScoredHit) :
    Except HTTPExc (List ScoredHit) :=
  wrap500 (
    if v.is_available = false then
      .error (.httpExc { status_code := 503,
                         detail := "Vector search service unavailable" })
    else
      match vsSearch v enc qres with
      | .error e => .error (.exn e)
      | .ok r => .ok r)

/-- The `/api/index` endpoint `index_asset` (main.py lines 171-194): 503
raised inside the `try` when the store is unavailable, then embed and
upsert; every failure surfaces through the 500 wrapper. -/
def api_index (supply : Nat → String) (v : VecService) (st : QdrantState)
    (enc : EncodeOutcome) (aid descr workspace nm : String) :
    Except HTTPExc (QdrantState × String) :=
  wrap500 (
    if v.is_available = false then
      .error (.httpExc { status_code := 503,
                         detail := "Vector search service unavailable" })
    else
      match generate_embedding v enc with
      | .error e => .error (.exn e)
      | .ok emb =>
        match index_asset supply v st aid descr emb
            [("workspace", workspace), ("name", nm)] with
        | .error e => .error (.exn e)
        | .ok st2 => .ok (st2, aid))

/-! ## Interleaving model of the moderation temp file

`check_image` (content_moderation.py lines 58-66) writes the decoded image
to the fixed path `/tmp/temp_image.jpg`, runs the detector on that path and
then removes the file.  Two in-flight requests therefore share the file at
that path as mutable state.  The model below runs two `check_image` bodies
step by step under an explicit schedule: step 0 = `image.save(temp_path)`
(overwrites whatever is there), step 1 = `detector.detect(temp_path)`
(reads whatever is there now; raises if the file is gone), step 2 =
`os.remove(temp_path)` (raises if the file is gone); any raise jumps to the
`except` clause, i.e. records an error outcome for that request. -/

/-- One in-flight `check_image` call: its own image (a decoded-image id),
its program counter, and the outcome observed so far. -/
structure ReqState where
  img : Nat
  pc : Nat
  res : Option ModOutcome
deriving DecidableEq

/-- The shared state of two in-flight moderation checks: the content of
`/tmp/temp_image.jpg` (`none` = file absent) and both request states. -/
structure ConcState where
  file : Option Nat
  r1 : ReqState
  r2 : ReqState
deriving DecidableEq

/-- One step of one request's `check_image` body against the shared file;
`detector` maps an image id to the classifier's detection list for it. -/
def stepReq (detector : Nat → List Detection) (file : Option Nat)
    (r : ReqState) : Option Nat × ReqState :=
  match r.pc with
  | 0 => (some r.img, { r with pc := 1 })
  | 1 =>
    match file with
    | some i => (file, { r with pc := 2, res := some (.ok (detector i)) })
    | none => (file, { r with pc := 3, res := some (.err "No such file or directory") })
  | 2 =>
    match file with
    | some _ => (none, { r with pc := 3 })
    | none => (none, { r with pc := 3, res := some (.err "No such file or directory") })
  | _ => (file, r)

/-- Run one scheduled step: `true` steps request 1, `false` request 2. -/
def schedStep (detector : Nat → List Detection) (s : ConcState)
    (first : Bool) : ConcState :=
  if first then
    let fr := stepReq detector s.file s.r1
    { s with file := fr.1, r1 := fr.2 }
  else
    let fr := stepReq detector s.file s.r2
    { s with file := fr.1, r2 := fr.2 }

/-- Run a whole schedule. -/
def runSched (detector : Nat → List Detection) (s : ConcState) :
    List Bool → ConcState
  | [] => s
  | c :: cs => runSched detector (schedStep detector s c) cs

/-- Both requests about to start, no temp file present. -/
def initConc (i1 i2 : Nat) : ConcState :=
  { file := none
    r1 := { img := i1, pc := 0, res := none }
    r2 := { img := i2, pc := 0, res := none } }

/-- The verdict a finished request's `check_image` call returns, built from
the outcome its body observed. -/
def verdictOf (threshold : ℚ) (r : ReqState) : Verdict :=
  check_image threshold (r.res.getD (.err "incomplete"))

/-! ## Concrete constants used in witnesses and counterexamples

Rational literals are given in reduced form so the kernel can evaluate the
threshold comparisons (`decide`). -/

/-- 0.6, the default moderation threshold, as the reduced rational 3/5. -/
def q06 : ℚ := ⟨3, 5, by norm_num, by norm_num⟩

/-- 0.9 as the reduced rational 9/10. -/
def q09 : ℚ := ⟨9, 10, by norm_num, by norm_num⟩

/-- 0.3 as the reduced rational 3/10. -/
def q03 : ℚ := ⟨3, 10, by norm_num, by norm_num⟩

theorem q06_eq : q06 = 6/10 := by
  rw [q06, Rat.mk'_eq_divInt, Rat.divInt_eq_div]; norm_num

theorem q09_eq : q09 = 9/10 := by
  rw [q09, Rat.mk'_eq_divInt, Rat.divInt_eq_div]; norm_num

theorem q03_eq : q03 = 3/10 := by
  rw [q03, Rat.mk'_eq_divInt, Rat.divInt_eq_div]; norm_num

/-- A classifier output with one triggering detection. -/
def riskyDets : List Detection :=
  [{ label := "EXPOSED_BREAST_F", score := q09, box := [] }]

/-- A description service configured for Ollama whose probe succeeded. -/
def dsUp : DescService :=
  { provider := "ollama", openai_api_key := none, availCached := true }

/-- A fully initialized vector search service. -/
def vsUp : VecService := { availCached := true, modelInit := true, clientInit := true }

/-- A classifier oracle for the interleaving model: image 2 contains a
high-confidence triggering detection, every other image is clean. -/
def detTest : Nat → List Detection :=
  fun i => if i == 2 then riskyDets else []

/-! ## Claims -/

/-- C1: for every analyze request whose moderation verdict has
`is_safe = false`, the pipeline terminates immediately: the description and
embedding providers are never invoked, and the response carries
`is_safe = false`, `description = null`, `embedding = null` together with
the moderation details. -/
theorem c1_unsafe_verdict_is_terminal (threshold : ℚ) (ds : DescService)
    (v : VecService) (mo : ModOutcome) (dco : CallOutcome) (enc : EncodeOutcome)
    (h : (check_image threshold mo).is_safe = false) :
    analyze_image threshold ds v mo dco enc =
      { result := .ok { is_safe := false, description := none, embedding := none,
                        moderation_details := check_image threshold mo }
        descCalled := false, embedCalled := false } := by
  simp [analyze_image, h]

/-- Witness for C1 at the classifier output
`[(EXPOSED_BREAST_F, 0.9)]` with threshold 0.6. -/
theorem c1_unsafe_verdict_is_terminal_witness :
    (check_image q06 (.ok riskyDets)).is_safe = false ∧
    analyze_image q06 dsUp vsUp (.ok riskyDets) (.http 200 "a cat") (.ok [1]) =
      { result := .ok { is_safe := false, description := none, embedding := none,
                        moderation_details := check_image q06 (.ok riskyDets) }
        descCalled := false, embedCalled := false } :=
  ⟨by decide,
   c1_unsafe_verdict_is_terminal q06 dsUp vsUp (.ok riskyDets)
     (.http 200 "a cat") (.ok [1]) (by decide)⟩

/-- C2: when the moderation check itself raises (decode failure, detector
failure, any exception inside `check_image`), the returned verdict has
`is_safe = true`, an error annotation in the message, and empty detections;
no exception escapes to the caller.  In the embedding, totality of
`check_image` on the `err` outcome is the no-escape property: the Python
`except` clause turns every exception into this return value. -/
theorem c2_moderation_fail_open (threshold : ℚ) (m : String) :
    check_image threshold (.err m) =
      { is_safe := true
        message := "Moderation check failed: " ++ m ++ ". Defaulting to safe."
        detections := []
        confidence_scores := []
        all_detections := none
        error := some m } := rfl

/-- C4: a detection triggers exactly when its label is in the fixed
risk-category list and its confidence is strictly greater than the
threshold; `is_safe` holds iff no detection triggers.  Concretely, with
threshold 0.6 a 0.3-confidence EXPOSED_BREAST_F is safe and a
0.9-confidence one is not. -/
theorem c4_threshold_semantics :
    (∀ (threshold : ℚ) (dets : List Detection),
      ((check_image threshold (.ok dets)).is_safe = true ↔
        ∀ d ∈ dets, ¬(d.label ∈ riskLabels ∧ threshold < d.score))) ∧
    (check_image q06 (.ok [{ label := "EXPOSED_BREAST_F", score := q03, box := [] }])).is_safe
      = true ∧
    (check_image q06 (.ok [{ label := "EXPOSED_BREAST_F", score := q09, box := [] }])).is_safe
      = false := by
  refine ⟨?_, by decide, by decide⟩
  intro threshold dets
  simp [check_image, List.isEmpty_iff, List.filter_eq_nil_iff]

/-- C5: `generate_embedding` propagates an exception to its caller whenever
the embedding model is not initialized or the encode call fails; it
succeeds exactly when the model is initialized and encoding succeeded, and
the index and search endpoints surface an encode failure as an error
response rather than swallowing it into a default value. -/
theorem c5_embedding_fail_closed :
    (∀ (a c : Bool) (enc : EncodeOutcome),
      generate_embedding ⟨a, false, c⟩ enc = .error "Embedding model not initialized") ∧
    (∀ (a c : Bool) (m : String),
      generate_embedding ⟨a, true, c⟩ (.exn m) = .error m) ∧
    (∀ (v : VecService) (enc : EncodeOutcome),
      (generate_embedding v enc).isOk = true ↔
        (v.modelInit = true ∧ ∃ vec, enc = .ok vec)) ∧
    (∀ (supply : Nat → String) (st : QdrantState) (aid descr w n m : String),
      api_index supply ⟨true, true, true⟩ st (.exn m) aid descr w n =
        .error { status_code := 500, detail := m }) ∧
    (∀ (qres : List ScoredHit) (m : String),
      api_search ⟨true, true, true⟩ (.exn m) qres =
        .error { status_code := 500, detail := m }) := by
  refine ⟨fun a c enc => rfl, fun a c m => rfl, ?_, fun supply st aid descr w n m => rfl,
    fun qres m => rfl⟩
  intro v enc
  rcases v with ⟨a, mi, c⟩
  cases mi <;> cases enc <;>
    simp [generate_embedding, Except.isOk, Except.toBool]

/-- C6 (code bug): when describe, search, or index is invoked with its
provider never initialized, the handler raises `HTTPException(503, ...)`
inside its own `try` block, so the trailing `except Exception` catches it
and re-raises it as a generic 500 whose detail merely embeds the 503 text.
The caller therefore receives a generic failure, not the distinct
service-unavailable condition the claim describes.  This theorem evaluates
all three endpoints at an uninitialized provider. -/
theorem c6_unavailable_masked_as_500 :
    api_describe { provider := "ollama", openai_api_key := none, availCached := false }
        (.http 200 "a cat") =
      .error { status_code := 500, detail := "503: Image description service unavailable" } ∧
    api_search { availCached := false, modelInit := true, clientInit := true }
        (.ok [1]) [] =
      .error { status_code := 500, detail := "503: Vector search service unavailable" } ∧
    api_index (fun n => toString n)
        { availCached := false, modelInit := true, clientInit := true }
        { points := [], ctr := 0 } (.ok [1]) "A" "D" "w" "n" =
      .error { status_code := 500, detail := "503: Vector search service unavailable" } := by
  refine ⟨by decide, by decide, ?_⟩
  rfl

/-- C7: every index call draws a fresh record id from the uuid supply,
independent of the caller-supplied `asset_id`; indexing the same `asset_id`
twice appends two records with distinct ids, the earlier one still present
and unreplaced.  The freshness hypotheses say the uuid supply does not
collide with existing record ids or itself — the defining property of
`uuid.uuid4()`. -/
theorem c7_reindex_appends_new_record (supply : Nat → String) (v : VecService)
    (st : QdrantState) (aid d1 d2 : String) (e1 e2 : List ℚ)
    (m1 m2 : List (String × String))
    (hclient : v.clientInit = true)
    (h1 : ∀ q ∈ st.points, q.id ≠ supply st.ctr)
    (h2 : ∀ q ∈ st.points, q.id ≠ supply (st.ctr + 1))
    (h3 : supply st.ctr ≠ supply (st.ctr + 1)) :
    index_asset supply v st aid d1 e1 m1 =
      .ok { points := st.points ++ [⟨supply st.ctr, e1, aid, d1, m1⟩], ctr := st.ctr + 1 } ∧
    index_asset supply v
        { points := st.points ++ [⟨supply st.ctr, e1, aid, d1, m1⟩], ctr := st.ctr + 1 }
        aid d2 e2 m2 =
      .ok { points := (st.points ++ [⟨supply st.ctr, e1, aid, d1, m1⟩]) ++
                        [⟨supply (st.ctr + 1), e2, aid, d2, m2⟩],
            ctr := st.ctr + 2 } ∧
    (⟨supply st.ctr, e1, aid, d1, m1⟩ : QPoint) ≠ ⟨supply (st.ctr + 1), e2, aid, d2, m2⟩ := by
  have hA : (st.points.any fun q => q.id == supply st.ctr) = false := by
    by_contra hc
    rw [Bool.not_eq_false, List.any_eq_true] at hc
    obtain ⟨q, hq, hid⟩ := hc
    exact h1 q hq (by simpa using hid)
  have hB : ((st.points ++ [(⟨supply st.ctr, e1, aid, d1, m1⟩ : QPoint)]).any
      fun q => q.id == supply (st.ctr + 1)) = false := by
    by_contra hc
    rw [Bool.not_eq_false, List.any_eq_true] at hc
    obtain ⟨q, hq, hid⟩ := hc
    rcases List.mem_append.mp hq with hq | hq
    · exact h2 q hq (by simpa using hid)
    · rcases List.mem_singleton.mp hq with rfl
      exact h3 (by simpa using hid)
  refine ⟨?_, ?_, ?_⟩
  · simp [index_asset, hclient, qdrantUpsert, hA]
  · simp [index_asset, hclient, qdrantUpsert, hB]
  · intro hc
    exact h3 (congrArg QPoint.id hc)

/-- Witness for C7: an empty store, the uuid supply `toString`, indexing
asset "A" twice. -/
theorem c7_reindex_appends_new_record_witness :
    (∀ q ∈ ([] : List QPoint), q.id ≠ toString 0) ∧
    (∀ q ∈ ([] : List QPoint), q.id ≠ toString 1) ∧
    toString 0 ≠ toString 1 ∧
    index_asset (fun n => toString n) vsUp { points := [], ctr := 0 } "A" "D1" [1] [] =
      .ok { points := [⟨toString 0, [1], "A", "D1", []⟩], ctr := 1 } ∧
    index_asset (fun n => toString n) vsUp
        { points := [] ++ [⟨toString 0, [1], "A", "D1", []⟩], ctr := 1 } "A" "D2" [2] [] =
      .ok { points := ([] ++ [⟨toString 0, [1], "A", "D1", []⟩]) ++
                        [⟨toString 1, [2], "A", "D2", []⟩], ctr := 2 } ∧
    (⟨toString 0, [1], "A", "D1", []⟩ : QPoint) ≠ ⟨toString 1, [2], "A", "D2", []⟩ := by
  have h := c7_reindex_appends_new_record (fun n => toString n) vsUp
    { points := [], ctr := 0 } "A" "D1" "D2" [1] [2] [] []
    (by decide) (by simp) (by simp) (by decide)
  exact ⟨by simp, by simp, by decide, h.1, h.2.1, h.2.2⟩

/-- C8: the description provider's `is_available` returns the probe result
computed once at construction; for provider "openai" the probe outcome is
never consulted (credential check only, no network call); a missing
credential or a probe exception resolves to `false`, and construction is
total — no environment makes it raise. -/
theorem c8_availability_probe_cached_and_total :
    (∀ (cfg : DescConfig) (probe : ProbeOutcome),
      (mkDescService cfg probe).is_available = checkAvailability cfg probe) ∧
    (∀ (key : Option String) (p1 p2 : ProbeOutcome),
      checkAvailability ⟨"openai", key⟩ p1 = checkAvailability ⟨"openai", key⟩ p2) ∧
    (∀ probe : ProbeOutcome, checkAvailability ⟨"openai", none⟩ probe = false) ∧
    (∀ (key : Option String) (m : String),
      checkAvailability ⟨"ollama", key⟩ (.exn m) = false) ∧
    (∀ (p : String) (key : Option String) (m : String),
      checkAvailability ⟨p, key⟩ (.exn m) = false ∨
        checkAvailability ⟨p, key⟩ (.exn m) = key.isSome) := by
  refine ⟨fun cfg probe => rfl, fun key p1 p2 => rfl, fun probe => rfl,
    fun key m => rfl, ?_⟩
  intro p key m
  by_cases hp : (p == "openai") = true
  · right; simp [checkAvailability, hp]
  · left; simp [checkAvailability, hp]

/-- C3 counterexample: the claim says embedding is attempted only when the
description is non-empty AND not an unavailable/error sentinel.  But
`analyze_image` gates embedding on Python truthiness alone
(`vector_search.is_available() and description`).  Here the Ollama call
returns a non-200 status, so `generate_description` yields the error
sentinel "Failed to generate image description" (image_description.py line
213) — yet the pipeline still computes an embedding for that sentinel
instead of terminating with `embedding = null`. -/
theorem c3_counterexample_sentinel_is_embedded :
    (analyze_image q06 dsUp vsUp (.ok []) (.http 500 "") (.ok [1])).result =
      .ok { is_safe := true,
            description := some "Failed to generate image description",
            embedding := some [1],
            moderation_details := check_image q06 (.ok []) } ∧
    (analyze_image q06 dsUp vsUp (.ok []) (.http 500 "") (.ok [1])).embedCalled = true := by
  refine ⟨by decide, by decide⟩

/-- C3 amended: in `analyze`, embedding is attempted exactly when the
vector provider is available and the produced description is a non-empty
string (Python truthiness); an empty description terminates the pipeline
with `embedding = null`, but non-empty sentinel/error strings are not
filtered out and do proceed to embedding. -/
theorem c3_amended_embedding_gated_by_nonempty (threshold : ℚ)
    (ds : DescService) (v : VecService) (mo : ModOutcome) (dco : CallOutcome)
    (enc : EncodeOutcome)
    (hsafe : (check_image threshold mo).is_safe = true)
    (havail : ds.is_available = true) :
    (analyze_image threshold ds v mo dco enc).embedCalled =
      (v.is_available && !(generate_description ds dco == "")) ∧
    (generate_description ds dco = "" →
      (analyze_image threshold ds v mo dco enc).result =
        .ok { is_safe := true, description := some "", embedding := none,
              moderation_details := check_image threshold mo }) := by
  constructor
  · by_cases hc : (v.is_available && !(generate_description ds dco == "")) = true
    · cases h : generate_embedding v enc <;>
        simp [analyze_image, hsafe, havail, hc, h]
    · rw [Bool.not_eq_true] at hc
      simp [analyze_image, hsafe, havail, hc]
  · intro hd
    have hc : (v.is_available && !(generate_description ds dco == "")) = false := by
      simp [hd]
    simp [analyze_image, hsafe, havail, hc, hd]

/-- Witness for the amended C3: safe verdict, Ollama available, a 200
response whose stripped body is empty — the embedding step is skipped and
the response carries `embedding = null`. -/
theorem c3_amended_embedding_gated_by_nonempty_witness :
    (check_image q06 (.ok [])).is_safe = true ∧
    dsUp.is_available = true ∧
    (analyze_image q06 dsUp vsUp (.ok []) (.http 200 "") (.ok [1])).embedCalled =
      (vsUp.is_available && !(generate_description dsUp (.http 200 "") == "")) ∧
    (generate_description dsUp (.http 200 "") = "" →
      (analyze_image q06 dsUp vsUp (.ok []) (.http 200 "") (.ok [1])).result =
        .ok { is_safe := true, description := some "", embedding := none,
              moderation_details := check_image q06 (.ok []) }) := by
  have h := c3_amended_embedding_gated_by_nonempty q06 dsUp vsUp (.ok [])
    (.http 200 "") (.ok [1]) (by decide) (by decide)
  exact ⟨by decide, by decide, h.1, h.2⟩

/-- C9 (code bug): `check_image` writes every request's image to the single
fixed path `/tmp/temp_image.jpg`, so two in-flight moderation checks share
mutable state beyond the long-lived provider handles.  Run solo (schedule
`[r1, r1, r1]`), request 1 with clean image 1 is judged safe; interleaved
with request 2 (schedule `[r1, r2, r1, r1, r2, r2]`, whose image 2 carries
a 0.9-confidence EXPOSED_BREAST_F), request 2's write lands between
request 1's write and its detect, so request 1 is judged on request 2's
image and comes back unsafe — the two checks interfere. -/
theorem c9_tempfile_interference :
    (verdictOf q06 (runSched detTest (initConc 1 2) [true, true, true]).r1).is_safe
      = true ∧
    (verdictOf q06 (runSched detTest (initConc 1 2)
        [true, false, true, true, false, false]).r1).is_safe = false := by
  refine ⟨by decide, by decide⟩

/-- C10 (implicit): when the embedding call raises after a safe moderation
verdict and a successful non-empty description, the whole analyze operation
fails with a generic HTTP 500 carrying only the exception text; the
already-computed verdict and description are discarded — no partial
response is produced. -/
theorem c10_embed_failure_discards_partial_result (threshold : ℚ)
    (ds : DescService) (v : VecService) (mo : ModOutcome) (dco : CallOutcome)
    (m : String)
    (hsafe : (check_image threshold mo).is_safe = true)
    (havail : ds.is_available = true)
    (hvs : v.is_available = true)
    (hmodel : v.modelInit = true)
    (hne : (generate_description ds dco == "") = false) :
    analyze_image threshold ds v mo dco (.exn m) =
      { result := .error { status_code := 500, detail := m }
        descCalled := true, embedCalled := true } := by
  have hemb : generate_embedding v (.exn m) = .error m := by
    simp [generate_embedding, hmodel]
  simp [analyze_image, hsafe, havail, hvs, hne, hemb]

/-- Witness for C10: safe verdict, both providers up, the Ollama
description succeeds with "a cat", the encode call raises "model crashed". -/
theorem c10_embed_failure_discards_partial_result_witness :
    (check_image q06 (.ok [])).is_safe = true ∧
    dsUp.is_available = true ∧
    vsUp.is_available = true ∧
    vsUp.modelInit = true ∧
    (generate_description dsUp (.http 200 "a cat") == "") = false ∧
    analyze_image q06 dsUp vsUp (.ok []) (.http 200 "a cat") (.exn "model crashed") =
      { result := .error { status_code := 500, detail := "model crashed" }
        descCalled := true, embedCalled := true } :=
  ⟨by decide, by decide, by decide, by decide, by decide,
   c10_embed_failure_discards_partial_result q06 dsUp vsUp (.ok [])
     (.http 200 "a cat") "model crashed" (by decide) (by decide) (by decide)
     (by decide) (by decide)⟩

end ImageAnalysis
